import Mathlib

/-!
Verification of the periodic-task scheduling controller
(`src/uxi_celery_scheduler/controller.py`).

The controller operates on a relational store through a SQLAlchemy session.
We embed the store as an explicit state value (`DB`) threaded through every
operation, and fallible operations return `Except PyErr (result × DB)`.

Session-primitive semantics used by the embedding (from SQLAlchemy's
documented behaviour):
  * `Query.get(pk)` returns the row with that primary key, or `None` when no
    such row exists; it does not raise `NoResultFound`.
  * `Query.one_or_none()` returns `None` on zero rows, the row on exactly one,
    and raises `MultipleResultsFound` on more than one.
  * An attribute assignment on `None` raises `AttributeError`;
    `session.delete(None)` raises `UnmappedInstanceError`.
  * `session.delete(obj)` registers a deletion that becomes visible to queries
    at the next `session.flush()`; `session.add` of a task whose crontab
    relationship holds a transient `CrontabSchedule` persists that schedule
    by the save-update cascade.
-/

namespace UxiCeleryScheduler

/-- Modelled from the spec: the transient `Schedule` input
(`uxi_celery_scheduler.data_models.Schedule`, a data model whose file is not
under src): five textual cron fields plus an IANA timezone string (spec
section 3). -/
structure Schedule where
  minute : String
  hour : String
  day_of_week : String
  day_of_month : String
  month_of_year : String
  timezone : String
deriving DecidableEq, Repr

/-- Modelled from the spec: the persisted `CrontabSchedule` row
(`uxi_celery_scheduler.db.models.CrontabSchedule`, not under src): a
store-assigned identity plus the six schedule fields (spec sections 3 and 6). -/
structure CrontabSchedule where
  id : Nat
  minute : String
  hour : String
  day_of_week : String
  day_of_month : String
  month_of_year : String
  timezone : String
deriving DecidableEq, Repr

/-- The six schedule fields of a persisted crontab row, as a `Schedule` value. -/
def CrontabSchedule.toSchedule (c : CrontabSchedule) : Schedule :=
  ⟨c.minute, c.hour, c.day_of_week, c.day_of_month, c.month_of_year, c.timezone⟩

/-- Modelled from the spec: the persisted `PeriodicTask` row
(`uxi_celery_scheduler.db.models.PeriodicTask`, not under src): id, name,
task reference, serialized kwargs, enabled flag, and a foreign reference to
exactly one crontab schedule (spec sections 3 and 6). -/
structure PeriodicTask where
  id : Nat
  name : String
  task : String
  kwargs : String
  enabled : Bool
  crontab_id : Nat
deriving DecidableEq, Repr

/-- Modelled from the spec: the transient `ScheduledTask` input
(`uxi_celery_scheduler.data_models.ScheduledTask`, not under src): name, task
reference and a `Schedule` (spec section 3). -/
structure ScheduledTask where
  name : String
  task : String
  schedule : Schedule
deriving DecidableEq, Repr

/-- The errors a controller call can surface. `periodicTaskNotFound` is the
domain error (`uxi_celery_scheduler.exceptions.PeriodicTaskNotFound`, not
under src); the others are storage/runtime errors: SQLAlchemy's
`NoResultFound` and `MultipleResultsFound`, Python's `AttributeError` on an
attribute access on `None`, and SQLAlchemy's `UnmappedInstanceError` from
`session.delete(None)`. -/
inductive PyErr where
  | periodicTaskNotFound
  | noResultFound
  | multipleResultsFound
  | attributeErrorNone
  | unmappedInstanceError
deriving DecidableEq, Repr

/-- The store as seen through one unit of work: the persisted schedule and
task rows, deletions registered by `session.delete` but not yet flushed, and
counters supplying fresh primary keys. -/
structure DB where
  schedules : List CrontabSchedule
  tasks : List PeriodicTask
  pendingTaskDeletes : List Nat
  pendingScheduleDeletes : List Nat
  nextScheduleId : Nat
  nextTaskId : Nat
deriving DecidableEq, Repr

/-- `session.query(PeriodicTask).get(pk)`: the row with that primary key, or
none when absent. It does not raise `NoResultFound`. -/
def queryGetTask (db : DB) (tid : Nat) : Option PeriodicTask :=
  db.tasks.find? (fun t => t.id == tid)

/-- The `and_` filter of `get_crontab_schedule`: all six fields equal. -/
def matchesSchedule (c : CrontabSchedule) (s : Schedule) : Bool :=
  c.minute == s.minute && c.hour == s.hour && c.day_of_week == s.day_of_week &&
    c.day_of_month == s.day_of_month && c.month_of_year == s.month_of_year &&
    c.timezone == s.timezone

/-- `Query.one_or_none()`: none on zero rows, the row on exactly one,
`MultipleResultsFound` on more than one. -/
def one_or_none {α : Type} : List α → Except PyErr (Option α)
  | [] => .ok none
  | [x] => .ok (some x)
  | _ => .error .multipleResultsFound

/-- `session.delete` on a task row: registered for deletion, applied to the
store at the next flush. -/
def sessionDeleteTask (db : DB) (tid : Nat) : DB :=
  { db with pendingTaskDeletes := tid :: db.pendingTaskDeletes }

/-- `session.delete` on a schedule row: registered for deletion, applied to
the store at the next flush. -/
def sessionDeleteSchedule (db : DB) (cid : Nat) : DB :=
  { db with pendingScheduleDeletes := cid :: db.pendingScheduleDeletes }

/-- `session.flush()`: apply the registered deletions to the store, making
them visible to subsequent queries. -/
def sessionFlush (db : DB) : DB :=
  { db with
    tasks := db.tasks.filter (fun t => !(db.pendingTaskDeletes.contains t.id))
    schedules :=
      db.schedules.filter (fun c => !(db.pendingScheduleDeletes.contains c.id))
    pendingTaskDeletes := []
    pendingScheduleDeletes := [] }

/-- The value returned by `get_crontab_schedule`: either an existing persisted
row, or a new not-yet-persisted `CrontabSchedule` built from the input
fields (`CrontabSchedule(**schedule.dict())`). -/
inductive CrontabResult where
  | persisted (c : CrontabSchedule)
  | transient (s : Schedule)
deriving DecidableEq, Repr

/-- The six schedule fields carried by a resolver result. -/
def CrontabResult.fields : CrontabResult → Schedule
  | .persisted c => c.toSchedule
  | .transient s => s

/-- `controller.get_crontab_schedule`: query the `CrontabSchedule` rows whose
six fields all equal the input schedule's (`one_or_none`); return the row
found, or a new transient `CrontabSchedule` built from `schedule.dict()`.
The query is read-only: the store comes back unchanged. -/
def get_crontab_schedule (db : DB) (schedule : Schedule) :
    Except PyErr (CrontabResult × DB) :=
  match one_or_none (db.schedules.filter (fun c => matchesSchedule c schedule)) with
  | .error e => .error e
  | .ok (some c) => .ok (.persisted c, db)
  | .ok none => .ok (.transient schedule, db)

/-- The save-update cascade of `session.add` for the task's `crontab`
relationship: a persisted row is referenced by its id; a transient value is
inserted as a new row under a fresh id. -/
def attachCrontab (db : DB) : CrontabResult → Nat × DB
  | .persisted c => (c.id, db)
  | .transient s =>
      (db.nextScheduleId,
        { db with
          schedules := db.schedules ++
            [⟨db.nextScheduleId, s.minute, s.hour, s.day_of_week,
              s.day_of_month, s.month_of_year, s.timezone⟩]
          nextScheduleId := db.nextScheduleId + 1 })

/-- `json.dumps(kwargs)` for the keyword-argument bundle. -/
def dumpKwargs (kwargs : List (String × String)) : String :=
  "\x7b" ++
    String.intercalate ", "
      (kwargs.map (fun kv => "\"" ++ kv.1 ++ "\": \"" ++ kv.2 ++ "\"")) ++
    "\x7d"

/-- The `try/except NoResultFound` wrapper shared by the task operations:
the store's `NoResultFound` is replaced by the domain error
`PeriodicTaskNotFound`; every other outcome passes through unchanged. -/
def catchNoResultFound {α : Type} : Except PyErr α → Except PyErr α
  | .error .noResultFound => .error .periodicTaskNotFound
  | r => r

/-- `controller.schedule_task`: resolve the schedule via
`get_crontab_schedule`, construct a new `PeriodicTask` bound to it with
serialized kwargs, and register it with the store (`session.add`). The
enabled flag of a newly created row defaults to true (the column default of
the db model, which is not under src; the spec's state machine admits
either initial value). -/
def schedule_task (db : DB) (scheduled_task : ScheduledTask)
    (kwargs : List (String × String)) : Except PyErr (PeriodicTask × DB) :=
  match get_crontab_schedule db scheduled_task.schedule with
  | .error e => .error e
  | .ok (crontab, db1) =>
    let cdb := attachCrontab db1 crontab
    let task : PeriodicTask :=
      { id := cdb.2.nextTaskId
        name := scheduled_task.name
        task := scheduled_task.task
        kwargs := dumpKwargs kwargs
        enabled := true
        crontab_id := cdb.1 }
    .ok (task,
      { cdb.2 with
        tasks := cdb.2.tasks ++ [task]
        nextTaskId := cdb.2.nextTaskId + 1 })

/-- `controller.update_task_enabled_status`: `Query.get` the task by id
(returns none when absent — it does not raise `NoResultFound`), assign the
`enabled` attribute (an attribute assignment on none raises
`AttributeError`), and `session.add` the task. The `except NoResultFound`
clause of the source is `catchNoResultFound`. -/
def update_task_enabled_status (db : DB) (enabled_status : Bool)
    (periodic_task_id : Nat) : Except PyErr (PeriodicTask × DB) :=
  catchNoResultFound
    (match queryGetTask db periodic_task_id with
     | none => .error .attributeErrorNone
     | some task =>
       let task := { task with enabled := enabled_status }
       .ok (task,
         { db with
           tasks := db.tasks.map
             (fun u => if u.id == periodic_task_id
               then { u with enabled := enabled_status } else u) }))

/-- `controller.update_task`: `Query.get` the task by id, resolve the
schedule for the new intent via `get_crontab_schedule` (evaluated before the
attribute assignment, so a resolver error surfaces first), rebind the task's
crontab reference to it (persisting the schedule when transient, by the
save-update cascade of `session.add`), and update name and task reference.
`kwargs`, `id` and `enabled` are not touched. An attribute assignment on a
none task raises `AttributeError`; the `except NoResultFound` clause of the
source is `catchNoResultFound`. -/
def update_task (db : DB) (scheduled_task : ScheduledTask)
    (periodic_task_id : Nat) : Except PyErr (PeriodicTask × DB) :=
  catchNoResultFound
    (match get_crontab_schedule db scheduled_task.schedule with
     | .error e => .error e
     | .ok (crontab, db1) =>
       match queryGetTask db periodic_task_id with
       | none => .error .attributeErrorNone
       | some task =>
         let cdb := attachCrontab db1 crontab
         let task := { task with
           crontab_id := cdb.1
           name := scheduled_task.name
           task := scheduled_task.task }
         .ok (task,
           { cdb.2 with
             tasks := cdb.2.tasks.map
               (fun u => if u.id == periodic_task_id
                 then { u with
                   crontab_id := cdb.1
                   name := scheduled_task.name
                   task := scheduled_task.task } else u) }))

/-- `controller.crontab_is_used`: query the `PeriodicTask` rows whose crontab
reference equals the given schedule row (`filter_by(crontab=...)` compiles
the relationship equality to a foreign-key comparison with the schedule's
primary key); `True if schedules else False` is list nonemptiness. The query
is read-only: the store comes back unchanged. -/
def crontab_is_used (db : DB) (crontab_schedule_id : Nat) : Bool × DB :=
  let schedules := db.tasks.filter (fun t => t.crontab_id == crontab_schedule_id)
  (if schedules.isEmpty then false else true, db)

/-- `controller.delete_task`: `Query.get` the task by id (returns none when
absent; `session.delete(None)` raises `UnmappedInstanceError`), register the
task's deletion, flush it so the orphan check observes it, and delete the
schedule row when `crontab_is_used` reports no remaining reference. Returns
the deleted task row. The `except NoResultFound` clause of the source is
`catchNoResultFound`. -/
def delete_task (db : DB) (periodic_task_id : Nat) :
    Except PyErr (PeriodicTask × DB) :=
  catchNoResultFound
    (match queryGetTask db periodic_task_id with
     | none => .error .unmappedInstanceError
     | some task =>
       let db1 := sessionDeleteTask db task.id
       let db2 := sessionFlush db1
       let useddb := crontab_is_used db2 task.crontab_id
       let db4 := if useddb.1 then useddb.2
         else sessionDeleteSchedule useddb.2 task.crontab_id
       .ok (task, db4))

/-- The empty store with an empty session. -/
def emptyDB : DB := ⟨[], [], [], [], 0, 0⟩

/-- A sample schedule intent: minute 0 of every hour, UTC. -/
def sampleSchedule : Schedule := ⟨"0", "*", "*", "*", "*", "UTC"⟩

/-- A sample task-creation input. -/
def sampleScheduledTask : ScheduledTask := ⟨"job", "app.tasks.run", sampleSchedule⟩

/-- The task row created by `schedule_task` from the sample input in the
empty store. -/
def task0 : PeriodicTask := ⟨0, "job", "app.tasks.run", "\x7b\x7d", true, 0⟩

/-- A store holding one schedule row and one task referencing it. -/
def oneTaskDB : DB :=
  { schedules := [⟨0, "0", "*", "*", "*", "*", "UTC"⟩]
    tasks := [task0]
    pendingTaskDeletes := []
    pendingScheduleDeletes := []
    nextScheduleId := 1
    nextTaskId := 1 }

/-- A second sample schedule intent, differing from the first in the minute
field. -/
def sampleSchedule2 : Schedule := ⟨"5", "*", "*", "*", "*", "UTC"⟩

/-- A sample task-update input renaming and rescheduling the task. -/
def sampleScheduledTask2 : ScheduledTask :=
  ⟨"job2", "app.tasks.other", sampleSchedule2⟩

/-- The task row after updating `task0` with the second sample input. -/
def task0v2 : PeriodicTask := ⟨0, "job2", "app.tasks.other", "\x7b\x7d", true, 1⟩

/-- The store after that update: both schedule rows present, the task rebound
to the new one. -/
def twoSchedDB : DB :=
  { schedules := [⟨0, "0", "*", "*", "*", "*", "UTC"⟩,
      ⟨1, "5", "*", "*", "*", "*", "UTC"⟩]
    tasks := [task0v2]
    pendingTaskDeletes := []
    pendingScheduleDeletes := []
    nextScheduleId := 2
    nextTaskId := 1 }

/-- The store transformation of a flag update: the row carrying the key gets
the supplied enabled value. -/
def setEnabledRows (l : List PeriodicTask) (tid : Nat) (e : Bool) :
    List PeriodicTask :=
  l.map (fun u => if u.id == tid then { u with enabled := e } else u)

/-- A crontab row passing the six-field filter carries exactly the input's
fields. -/
lemma matchesSchedule_eq {c : CrontabSchedule} {s : Schedule}
    (h : matchesSchedule c s = true) : c.toSchedule = s := by
  cases s
  simp only [matchesSchedule, Bool.and_eq_true, beq_iff_eq] at h
  obtain ⟨⟨⟨⟨⟨h1, h2⟩, h3⟩, h4⟩, h5⟩, h6⟩ := h
  simp [CrontabSchedule.toSchedule, h1, h2, h3, h4, h5, h6]

/-- Characterization of a successful schedule resolution: the store is
unchanged, the result carries the input's fields, and a persisted result is
an existing row passing the filter. -/
lemma get_crontab_schedule_ok {db : DB} {s : Schedule} {r : CrontabResult}
    {db' : DB} (h : get_crontab_schedule db s = .ok (r, db')) :
    db' = db ∧ r.fields = s ∧
      ∀ c, r = .persisted c → c ∈ db.schedules ∧ matchesSchedule c s = true := by
  unfold get_crontab_schedule at h
  rcases hf : db.schedules.filter (fun c => matchesSchedule c s) with _ | ⟨c, _ | ⟨c2, rest⟩⟩ <;>
    rw [hf] at h <;> simp only [one_or_none] at h
  · obtain ⟨h1, h2⟩ := Prod.mk.injEq .. ▸ Except.ok.inj h
    subst h2
    refine ⟨rfl, by rw [← h1]; rfl, fun c hc => ?_⟩
    rw [← h1] at hc; cases hc
  · obtain ⟨h1, h2⟩ := Prod.mk.injEq .. ▸ Except.ok.inj h
    subst h2
    have hcmem : c ∈ db.schedules.filter (fun c => matchesSchedule c s) := by
      rw [hf]; exact List.mem_cons_self c []
    have hc := List.mem_filter.mp hcmem
    refine ⟨rfl, ?_, fun c' hc' => ?_⟩
    · rw [← h1]; exact matchesSchedule_eq hc.2
    · rw [← h1] at hc'
      obtain rfl := CrontabResult.persisted.inj hc'
      exact hc
  · cases h

/-- The truth value of `crontab_is_used`: some task row references the
schedule. -/
lemma crontab_is_used_true_iff (db : DB) (cid : Nat) :
    (crontab_is_used db cid).1 = true ↔ ∃ t ∈ db.tasks, t.crontab_id = cid := by
  have hfst : (crontab_is_used db cid).1 =
      if (db.tasks.filter (fun t => t.crontab_id == cid)).isEmpty then false
      else true := rfl
  rcases hf : db.tasks.filter (fun t => t.crontab_id == cid) with _ | ⟨t, rest⟩
  · rw [hfst, hf]
    constructor
    · intro hcontra; exact Bool.noConfusion hcontra
    · rintro ⟨u, hu, hc⟩
      exact absurd (by simp [hc]) (List.filter_eq_nil_iff.mp hf u hu)
  · rw [hfst, hf]
    have hmem : t ∈ db.tasks.filter (fun t => t.crontab_id == cid) := by
      rw [hf]; exact List.mem_cons_self t rest
    have hmf := List.mem_filter.mp hmem
    constructor
    · intro _
      exact ⟨t, hmf.1, by simpa using hmf.2⟩
    · intro _; rfl

/-- `crontab_is_used` returns the store unchanged. -/
lemma crontab_is_used_snd (db : DB) (cid : Nat) :
    (crontab_is_used db cid).2 = db := rfl

/-- A task found by primary key carries that key. -/
lemma queryGetTask_id {db : DB} {tid : Nat} {t : PeriodicTask}
    (h : queryGetTask db tid = some t) : t.id = tid := by
  have := List.find?_some h
  simpa using this

/-- A task found by primary key is a row of the store. -/
lemma queryGetTask_mem {db : DB} {tid : Nat} {t : PeriodicTask}
    (h : queryGetTask db tid = some t) : t ∈ db.tasks :=
  List.mem_of_find?_eq_some h

/-- Looking up a key after an id-preserving per-row update finds the updated
row. -/
lemma find?_map_update (tid : Nat) (f : PeriodicTask → PeriodicTask)
    (hf : ∀ u, (f u).id = u.id) (l : List PeriodicTask) :
    ∀ t, l.find? (fun u => u.id == tid) = some t →
      (l.map (fun u => if u.id == tid then f u else u)).find?
        (fun u => u.id == tid) = some (f t) := by
  induction l with
  | nil => intro t h; cases h
  | cons a l ih =>
    intro t h
    by_cases ha : (a.id == tid) = true
    · rw [List.find?_cons_of_pos (p := fun u : PeriodicTask => u.id == tid) l ha] at h
      obtain rfl := Option.some.inj h
      simp only [List.map_cons]
      rw [if_pos ha]
      exact List.find?_cons_of_pos (p := fun u : PeriodicTask => u.id == tid) _
        (show ((f a).id == tid) = true by rw [hf a]; exact ha)
    · rw [List.find?_cons_of_neg (p := fun u : PeriodicTask => u.id == tid) l ha] at h
      simp only [List.map_cons]
      rw [if_neg ha]
      rw [List.find?_cons_of_neg (p := fun u : PeriodicTask => u.id == tid) _ ha]
      exact ih t h

/-- A per-row update hitting the looked-up key keeps the updated row in the
store. -/
lemma mem_map_update {l : List PeriodicTask} {t : PeriodicTask} {tid : Nat}
    (f : PeriodicTask → PeriodicTask) (hmem : t ∈ l) (ht : (t.id == tid) = true) :
    f t ∈ l.map (fun u => if u.id == tid then f u else u) := by
  have hstep := List.mem_map_of_mem
    (fun u => if u.id == tid then f u else u) hmem
  have hred : (fun u => if u.id == tid then f u else u) t = f t := if_pos ht
  exact hred ▸ hstep

/-- Successful run of `update_task_enabled_status` on an existing task: the
returned task is the row with the flag set, and the store holds the update. -/
lemma update_enabled_ok {db : DB} {tid : Nat} {t : PeriodicTask} (e : Bool)
    (h : queryGetTask db tid = some t) :
    update_task_enabled_status db e tid =
      .ok ({ t with enabled := e },
        { db with tasks := setEnabledRows db.tasks tid e }) := by
  unfold update_task_enabled_status
  rw [h]
  rfl

/-- Characterization of a successful `schedule_task` run: the returned task
carries the input's name and task reference and a fresh id, the store gains
that task while keeping every prior task row, and the task's crontab
reference points at a stored row whose fields equal the input schedule. -/
lemma schedule_task_ok {db : DB} {st : ScheduledTask}
    {kw : List (String × String)} {r : PeriodicTask} {db' : DB}
    (h : schedule_task db st kw = .ok (r, db')) :
    r.name = st.name ∧ r.task = st.task ∧ r.id = db.nextTaskId ∧
      db'.nextTaskId = db.nextTaskId + 1 ∧ r ∈ db'.tasks ∧
      (∀ u ∈ db.tasks, u ∈ db'.tasks) ∧
      ∃ c ∈ db'.schedules, c.id = r.crontab_id ∧ c.toSchedule = st.schedule := by
  unfold schedule_task at h
  rcases hres : get_crontab_schedule db st.schedule with e | ⟨crontab, db1⟩
  · rw [hres] at h; cases h
  · rw [hres] at h
    obtain ⟨hdb1, hfields, hpers⟩ := get_crontab_schedule_ok hres
    subst hdb1
    obtain ⟨h1, h2⟩ := Prod.mk.injEq .. ▸ Except.ok.inj h
    subst h2
    subst h1
    cases crontab with
    | persisted c =>
      obtain ⟨hcmem, -⟩ := hpers c rfl
      exact ⟨rfl, rfl, rfl, rfl,
        List.mem_append_right _ (List.mem_cons_self _ _),
        fun u hu => List.mem_append_left _ hu,
        c, hcmem, rfl, hfields⟩
    | transient s =>
      exact ⟨rfl, rfl, rfl, rfl,
        List.mem_append_right _ (List.mem_cons_self _ _),
        fun u hu => List.mem_append_left _ hu,
        ⟨db1.nextScheduleId, s.minute, s.hour, s.day_of_week, s.day_of_month,
          s.month_of_year, s.timezone⟩,
        List.mem_append_right _ (List.mem_cons_self _ _), rfl, hfields⟩

/-- When the schedule resolution succeeds, `schedule_task` succeeds: no
uniqueness check of any kind can make it fail. -/
lemma schedule_task_total {db : DB} {st : ScheduledTask}
    {res : CrontabResult × DB} (kw : List (String × String))
    (hres : get_crontab_schedule db st.schedule = .ok res) :
    ∃ r db', schedule_task db st kw = .ok (r, db') := by
  rcases res with ⟨crontab, db1⟩
  have h : schedule_task db st kw = .ok
      ({ id := (attachCrontab db1 crontab).2.nextTaskId, name := st.name,
         task := st.task, kwargs := dumpKwargs kw, enabled := true,
         crontab_id := (attachCrontab db1 crontab).1 },
        { (attachCrontab db1 crontab).2 with
          tasks := (attachCrontab db1 crontab).2.tasks ++
              [{ id := (attachCrontab db1 crontab).2.nextTaskId, name := st.name,
                 task := st.task, kwargs := dumpKwargs kw, enabled := true,
                 crontab_id := (attachCrontab db1 crontab).1 }]
          nextTaskId := (attachCrontab db1 crontab).2.nextTaskId + 1 }) := by
    unfold schedule_task
    rw [hres]
  exact ⟨_, _, h⟩

/-- C1: the spec requires every task operation addressed at a missing
identifier to fail with the domain error `PeriodicTaskNotFound`, and the
source's `except NoResultFound` handlers show the same intent; but
`Query.get` returns none instead of raising `NoResultFound`, so on a missing
id the code raises `AttributeError` (`update_task_enabled_status`,
`update_task`) or `UnmappedInstanceError` (`delete_task`), storage-layer
errors that bypass the dead handler. Evaluated here at the failing input:
the empty store with identifier 1. -/
theorem c1_missing_id_storage_error :
    update_task_enabled_status emptyDB true 1 = .error .attributeErrorNone ∧
    update_task emptyDB sampleScheduledTask 1 = .error .attributeErrorNone ∧
    delete_task emptyDB 1 = .error .unmappedInstanceError :=
  ⟨rfl, rfl, rfl⟩

/-- C2: resolving the same schedule fields twice yields field-equal results
(both carry exactly the input fields) and the second resolve returns the
same unchanged store: no duplicate schedule row is created. -/
theorem c2_resolve_twice_field_equal (db : DB) (s : Schedule)
    (r1 : CrontabResult) (db1 : DB)
    (h : get_crontab_schedule db s = .ok (r1, db1)) :
    db1 = db ∧ r1.fields = s ∧ get_crontab_schedule db1 s = .ok (r1, db1) := by
  obtain ⟨h1, h2, -⟩ := get_crontab_schedule_ok h
  subst h1
  exact ⟨rfl, h2, h⟩

/-- Witness for C2 at the empty store and the sample schedule. -/
theorem c2_witness :
    emptyDB = emptyDB ∧
      (CrontabResult.transient sampleSchedule).fields = sampleSchedule ∧
      get_crontab_schedule emptyDB sampleSchedule =
        .ok (.transient sampleSchedule, emptyDB) :=
  c2_resolve_twice_field_equal emptyDB sampleSchedule
    (.transient sampleSchedule) emptyDB rfl

/-- C5: `crontab_is_used` leaves the store unchanged, and returns true
exactly when at least one task row references the given schedule. -/
theorem c5_crontab_is_used_pure_iff (db : DB) (cid : Nat) :
    (crontab_is_used db cid).2 = db ∧
      ((crontab_is_used db cid).1 = true ↔ ∃ t ∈ db.tasks, t.crontab_id = cid) :=
  ⟨rfl, crontab_is_used_true_iff db cid⟩

/-- C8: a successful schedule resolution leaves the store unchanged, and
when no stored row matches the six input fields it returns a new transient
`CrontabSchedule` whose fields equal the input's. -/
theorem c8_resolver_frame_fresh (db : DB) (s : Schedule) (r : CrontabResult)
    (db' : DB) (h : get_crontab_schedule db s = .ok (r, db')) :
    db' = db ∧
      ((∀ c ∈ db.schedules, matchesSchedule c s = false) →
        r = .transient s) := by
  obtain ⟨h1, h2, h3⟩ := get_crontab_schedule_ok h
  refine ⟨h1, fun hnone => ?_⟩
  cases r with
  | persisted c =>
    have hc := h3 c rfl
    rw [hnone c hc.1] at hc
    cases hc.2
  | transient s' =>
    rw [show s' = s from h2]

/-- Witness for C8 at the empty store and the sample schedule. -/
theorem c8_witness :
    emptyDB = emptyDB ∧
      ((∀ c ∈ emptyDB.schedules, matchesSchedule c sampleSchedule = false) →
        CrontabResult.transient sampleSchedule = .transient sampleSchedule) :=
  c8_resolver_frame_fresh emptyDB sampleSchedule
    (.transient sampleSchedule) emptyDB rfl

/-- C6: on an existing task, `update_task_enabled_status` sets the enabled
flag to exactly the supplied boolean and re-registers the updated row in the
store; calling it with the opposite value and then with the original value
returns the task to its original state. -/
theorem c6_toggle_roundtrip (db : DB) (tid : Nat) (t : PeriodicTask)
    (h : queryGetTask db tid = some t) :
    ∃ t1 db1,
      update_task_enabled_status db (!t.enabled) tid = Except.ok (t1, db1) ∧
      t1.enabled = (!t.enabled) ∧ t1 ∈ db1.tasks ∧
      ∃ t2 db2,
        update_task_enabled_status db1 t.enabled tid = Except.ok (t2, db2) ∧
        t2 = t ∧ t2 ∈ db2.tasks := by
  have htid : t.id = tid := queryGetTask_id h
  have htb : (t.id == tid) = true := by simp [htid]
  have hm1 : ({ t with enabled := !t.enabled } : PeriodicTask) ∈
      setEnabledRows db.tasks tid (!t.enabled) :=
    mem_map_update (fun u => { u with enabled := !t.enabled })
      (queryGetTask_mem h) htb
  have hq1 : queryGetTask
      { db with tasks := setEnabledRows db.tasks tid (!t.enabled) } tid =
      some { t with enabled := !t.enabled } :=
    find?_map_update tid (fun u => { u with enabled := !t.enabled })
      (fun _ => rfl) db.tasks t h
  have hm2 : ({ t with enabled := t.enabled } : PeriodicTask) ∈
      setEnabledRows (setEnabledRows db.tasks tid (!t.enabled)) tid t.enabled :=
    mem_map_update (t := { t with enabled := !t.enabled })
      (fun u => { u with enabled := t.enabled }) hm1 htb
  exact ⟨{ t with enabled := !t.enabled }, _,
    update_enabled_ok (!t.enabled) h, rfl, hm1, t, _,
    update_enabled_ok (t := { t with enabled := !t.enabled }) t.enabled hq1,
    rfl, hm2⟩

/-- Witness for C6 at the one-task store. -/
theorem c6_witness :
    ∃ t1 db1,
      update_task_enabled_status oneTaskDB (!task0.enabled) 0 =
        Except.ok (t1, db1) ∧
      t1.enabled = (!task0.enabled) ∧ t1 ∈ db1.tasks ∧
      ∃ t2 db2,
        update_task_enabled_status db1 task0.enabled 0 = Except.ok (t2, db2) ∧
        t2 = task0 ∧ t2 ∈ db2.tasks :=
  c6_toggle_roundtrip oneTaskDB 0 task0 rfl

/-- C4: a successful `schedule_task` registers with the store a newly
constructed task carrying the input's name and task reference, whose crontab
reference points at a stored schedule row field-equal to the schedule
resolved from the input's `Schedule` intent. -/
theorem c4_schedule_task_binds_resolved (db : DB) (st : ScheduledTask)
    (kw : List (String × String)) (r : PeriodicTask) (db' : DB)
    (h : schedule_task db st kw = .ok (r, db')) :
    r ∈ db'.tasks ∧ r.name = st.name ∧ r.task = st.task ∧
      ∃ c ∈ db'.schedules, c.id = r.crontab_id ∧ c.toSchedule = st.schedule := by
  obtain ⟨hn, ht, -, -, hmem, -, hsched⟩ := schedule_task_ok h
  exact ⟨hmem, hn, ht, hsched⟩

/-- Witness for C4: creating the sample task in the empty store. -/
theorem c4_witness :
    task0 ∈ oneTaskDB.tasks ∧ task0.name = sampleScheduledTask.name ∧
      task0.task = sampleScheduledTask.task ∧
      ∃ c ∈ oneTaskDB.schedules, c.id = task0.crontab_id ∧
        c.toSchedule = sampleScheduledTask.schedule :=
  c4_schedule_task_binds_resolved emptyDB sampleScheduledTask [] task0 oneTaskDB
    (by rfl)

/-- C9: `schedule_task` performs no uniqueness check on the task name: a
second call whose input shares the first's name still succeeds (whenever its
schedule resolution does), and afterwards the store holds two distinct task
rows bearing the same name. -/
theorem c9_no_name_uniqueness (db : DB) (st1 st2 : ScheduledTask)
    (kw1 kw2 : List (String × String)) (r1 : PeriodicTask) (db1 : DB)
    (res : CrontabResult × DB)
    (hname : st2.name = st1.name)
    (h1 : schedule_task db st1 kw1 = .ok (r1, db1))
    (hres : get_crontab_schedule db1 st2.schedule = .ok res) :
    ∃ r2 db2, schedule_task db1 st2 kw2 = .ok (r2, db2) ∧
      r2.name = r1.name ∧ r2.id ≠ r1.id ∧ r1 ∈ db2.tasks ∧ r2 ∈ db2.tasks := by
  obtain ⟨hn1, -, hid1, hnext1, hmem1, -, -⟩ := schedule_task_ok h1
  obtain ⟨r2, db2, h2⟩ := schedule_task_total kw2 hres
  obtain ⟨hn2, -, hid2, -, hmem2, hpres2, -⟩ := schedule_task_ok h2
  refine ⟨r2, db2, h2, ?_, ?_, hpres2 r1 hmem1, hmem2⟩
  · rw [hn2, hname, ← hn1]
  · rw [hid2, hnext1, hid1]
    omega

/-- Witness for C9: creating the sample task twice from the empty store. -/
theorem c9_witness :
    ∃ r2 db2,
      schedule_task oneTaskDB sampleScheduledTask [] = Except.ok (r2, db2) ∧
      r2.name = task0.name ∧ r2.id ≠ task0.id ∧ task0 ∈ db2.tasks ∧
      r2 ∈ db2.tasks :=
  c9_no_name_uniqueness emptyDB sampleScheduledTask sampleScheduledTask [] []
    task0 oneTaskDB
    (.persisted ⟨0, "0", "*", "*", "*", "*", "UTC"⟩, oneTaskDB)
    rfl (by rfl) (by rfl)

/-- Characterization of a successful `update_task` run on an existing task:
the returned task keeps the original's id, enabled flag and kwargs, takes
the input's name and task reference, is rebound to a stored schedule row
field-equal to the input schedule, and no schedule row is removed. -/
lemma update_task_ok {db : DB} {st : ScheduledTask} {tid : Nat}
    {t r : PeriodicTask} {db' : DB}
    (hget : queryGetTask db tid = some t)
    (h : update_task db st tid = .ok (r, db')) :
    r.name = st.name ∧ r.task = st.task ∧ r.kwargs = t.kwargs ∧
      r.id = t.id ∧ r.enabled = t.enabled ∧
      (∀ c ∈ db.schedules, c ∈ db'.schedules) ∧
      ∃ c ∈ db'.schedules, c.id = r.crontab_id ∧ c.toSchedule = st.schedule := by
  unfold update_task at h
  rcases hres : get_crontab_schedule db st.schedule with e | ⟨crontab, db1⟩
  · rw [hres] at h
    cases e <;> cases h
  · rw [hres, hget] at h
    obtain ⟨hdb1, hfields, hpers⟩ := get_crontab_schedule_ok hres
    subst hdb1
    obtain ⟨h1, h2⟩ := Prod.mk.injEq .. ▸ Except.ok.inj h
    subst h2
    subst h1
    cases crontab with
    | persisted c =>
      obtain ⟨hcmem, -⟩ := hpers c rfl
      exact ⟨rfl, rfl, rfl, rfl, rfl, fun c' hc' => hc', c, hcmem, rfl, hfields⟩
    | transient s =>
      exact ⟨rfl, rfl, rfl, rfl, rfl,
        fun c' hc' => List.mem_append_left _ hc',
        ⟨db1.nextScheduleId, s.minute, s.hour, s.day_of_week, s.day_of_month,
          s.month_of_year, s.timezone⟩,
        List.mem_append_right _ (List.mem_cons_self _ _), rfl, hfields⟩

/-- C7: a successful `update_task` on an existing task rebinds the task's
crontab reference to a stored schedule row field-equal to the new `Schedule`
intent and updates name and task reference, while kwargs stays unchanged and
every schedule row previously in the store is still there afterwards. -/
theorem c7_update_task_rebind_keeps_schedules (db : DB) (st : ScheduledTask)
    (tid : Nat) (t r : PeriodicTask) (db' : DB)
    (hget : queryGetTask db tid = some t)
    (h : update_task db st tid = .ok (r, db')) :
    r.kwargs = t.kwargs ∧ r.name = st.name ∧ r.task = st.task ∧
      (∃ c ∈ db'.schedules, c.id = r.crontab_id ∧ c.toSchedule = st.schedule) ∧
      ∀ c ∈ db.schedules, c ∈ db'.schedules := by
  obtain ⟨hn, hta, hk, -, -, hpres, hsched⟩ := update_task_ok hget h
  exact ⟨hk, hn, hta, hsched, hpres⟩

/-- Witness for C7: rescheduling and renaming the one stored task. -/
theorem c7_witness :
    task0v2.kwargs = task0.kwargs ∧ task0v2.name = sampleScheduledTask2.name ∧
      task0v2.task = sampleScheduledTask2.task ∧
      (∃ c ∈ twoSchedDB.schedules, c.id = task0v2.crontab_id ∧
        c.toSchedule = sampleScheduledTask2.schedule) ∧
      ∀ c ∈ oneTaskDB.schedules, c ∈ twoSchedDB.schedules :=
  c7_update_task_rebind_keeps_schedules oneTaskDB sampleScheduledTask2 0
    task0 task0v2 twoSchedDB rfl (by rfl)

/-- C10: a successful `update_task` on an existing task leaves the task's
id, enabled flag and kwargs unchanged: only the crontab reference, name and
task reference can differ between the row before and after the call. -/
theorem c10_update_task_fixes_id_enabled (db : DB) (st : ScheduledTask)
    (tid : Nat) (t r : PeriodicTask) (db' : DB)
    (hget : queryGetTask db tid = some t)
    (h : update_task db st tid = .ok (r, db')) :
    r.id = t.id ∧ r.enabled = t.enabled ∧ r.kwargs = t.kwargs := by
  obtain ⟨-, -, hk, hid, he, -, -⟩ := update_task_ok hget h
  exact ⟨hid, he, hk⟩

/-- Witness for C10 at the same concrete update. -/
theorem c10_witness :
    task0v2.id = task0.id ∧ task0v2.enabled = task0.enabled ∧
      task0v2.kwargs = task0.kwargs :=
  c10_update_task_fixes_id_enabled oneTaskDB sampleScheduledTask2 0
    task0 task0v2 twoSchedDB rfl (by rfl)

/-- Membership test against a one-element key list is key inequality. -/
lemma not_contains_singleton {x y : Nat} :
    (!(List.contains [x] y)) = true ↔ y ≠ x := by
  simp

/-- Shape of a `delete_task` run on an existing task: the task's deletion is
registered and flushed, then the schedule row is kept or deleted according
to the orphan check on the flushed store. -/
lemma delete_task_run {db : DB} {tid : Nat} {t : PeriodicTask}
    (hget : queryGetTask db tid = some t) :
    delete_task db tid = .ok (t,
      if (crontab_is_used (sessionFlush (sessionDeleteTask db t.id))
          t.crontab_id).1
      then sessionFlush (sessionDeleteTask db t.id)
      else sessionDeleteSchedule (sessionFlush (sessionDeleteTask db t.id))
        t.crontab_id) := by
  unfold delete_task
  rw [hget]
  rfl

/-- C3: deleting an existing task (through a session with no deletions still
pending) removes that task's rows from the store; when at least one other
task references the same schedule the schedule row survives and
`crontab_is_used` still reports it used, and when no other task references
it the schedule row is removed as well. -/
theorem c3_delete_task_gc (db : DB) (tid : Nat) (t : PeriodicTask)
    (hget : queryGetTask db tid = some t)
    (hpt : db.pendingTaskDeletes = [])
    (hps : db.pendingScheduleDeletes = []) :
    ∃ db', delete_task db tid = Except.ok (t, db') ∧
      (∀ u ∈ db'.tasks, u.id ≠ tid) ∧
      ((∃ u ∈ db.tasks, u.id ≠ tid ∧ u.crontab_id = t.crontab_id) →
        db'.schedules = db.schedules ∧
        (sessionFlush db').schedules = db.schedules ∧
        (crontab_is_used db' t.crontab_id).1 = true) ∧
      ((¬∃ u ∈ db.tasks, u.id ≠ tid ∧ u.crontab_id = t.crontab_id) →
        ∀ c ∈ (sessionFlush db').schedules, c.id ≠ t.crontab_id) := by
  have htid : t.id = tid := queryGetTask_id hget
  subst htid
  have hft : (sessionFlush (sessionDeleteTask db t.id)).tasks =
      db.tasks.filter (fun u => !(List.contains [t.id] u.id)) := by
    show db.tasks.filter
        (fun u => !((t.id :: db.pendingTaskDeletes).contains u.id)) = _
    rw [hpt]
  have hfsched : (sessionFlush (sessionDeleteTask db t.id)).schedules =
      db.schedules := by
    show db.schedules.filter
        (fun c => !(db.pendingScheduleDeletes.contains c.id)) = _
    rw [hps]
    exact List.filter_eq_self.mpr (fun a _ => rfl)
  have hbridge : (crontab_is_used (sessionFlush (sessionDeleteTask db t.id))
      t.crontab_id).1 = true ↔
      (∃ u ∈ db.tasks, u.id ≠ t.id ∧ u.crontab_id = t.crontab_id) := by
    rw [crontab_is_used_true_iff]
    constructor
    · rintro ⟨u, hmem, hcr⟩
      rw [hft] at hmem
      obtain ⟨hmem', hq⟩ := List.mem_filter.mp hmem
      exact ⟨u, hmem', not_contains_singleton.mp hq, hcr⟩
    · rintro ⟨u, hmem, hne, hcr⟩
      refine ⟨u, ?_, hcr⟩
      rw [hft]
      exact List.mem_filter.mpr ⟨hmem, not_contains_singleton.mpr hne⟩
  have htasks : ∀ u ∈ db.tasks.filter (fun u => !(List.contains [t.id] u.id)),
      u.id ≠ t.id :=
    fun u hmem => not_contains_singleton.mp (List.mem_filter.mp hmem).2
  by_cases hu : (crontab_is_used (sessionFlush (sessionDeleteTask db t.id))
      t.crontab_id).1 = true
  · refine ⟨sessionFlush (sessionDeleteTask db t.id), ?_, ?_, ?_, ?_⟩
    · have hrun := delete_task_run hget
      rw [if_pos hu] at hrun
      exact hrun
    · exact fun u hmem => htasks u (hft ▸ hmem)
    · intro _
      refine ⟨hfsched, ?_, hu⟩
      have hflush : (sessionFlush (sessionFlush (sessionDeleteTask db t.id))).schedules =
          (sessionFlush (sessionDeleteTask db t.id)).schedules :=
        List.filter_eq_self.mpr (fun a _ => rfl)
      rw [hflush, hfsched]
    · intro hnex
      exact absurd (hbridge.mp hu) hnex
  · refine ⟨sessionDeleteSchedule (sessionFlush (sessionDeleteTask db t.id))
      t.crontab_id, ?_, ?_, ?_, ?_⟩
    · have hrun := delete_task_run hget
      rw [if_neg hu] at hrun
      exact hrun
    · exact fun u hmem =>
        htasks u (hft ▸ (show u ∈ (sessionFlush (sessionDeleteTask db t.id)).tasks
          from hmem))
    · intro hex
      exact absurd (hbridge.mpr hex) hu
    · intro _ c hmem
      have hq := (List.mem_filter.mp
        (show c ∈ (sessionDeleteSchedule (sessionFlush (sessionDeleteTask db t.id))
            t.crontab_id).schedules.filter
            (fun c => !(List.contains [t.crontab_id] c.id)) from hmem)).2
      exact not_contains_singleton.mp hq

/-- Witness for C3: deleting the only task of the one-task store. -/
theorem c3_witness :
    ∃ db', delete_task oneTaskDB 0 = Except.ok (task0, db') ∧
      (∀ u ∈ db'.tasks, u.id ≠ 0) ∧
      ((∃ u ∈ oneTaskDB.tasks, u.id ≠ 0 ∧ u.crontab_id = task0.crontab_id) →
        db'.schedules = oneTaskDB.schedules ∧
        (sessionFlush db').schedules = oneTaskDB.schedules ∧
        (crontab_is_used db' task0.crontab_id).1 = true) ∧
      ((¬∃ u ∈ oneTaskDB.tasks, u.id ≠ 0 ∧ u.crontab_id = task0.crontab_id) →
        ∀ c ∈ (sessionFlush db').schedules, c.id ≠ task0.crontab_id) :=
  c3_delete_task_gc oneTaskDB 0 task0 rfl rfl rfl

end UxiCeleryScheduler
